import Mathlib

/-
Formal model of the brigade API server control plane, translated from the Go
sources: the MongoDB-backed jobs store (jobs_store.go), the reserved system
principals (named_principals.go), the principal-in-context helpers
(principals.go), and — modelled from the specification where only tests or
declarations are present in the sources — the users store Lock/Unlock, the
role-assignments service, and the role constructors.

Document-store semantics: a MongoDB collection is a list of documents;
UpdateOne with a filter and a set of field updates rewrites the first
matching document and reports the matched count (0 or 1).
-/

/-- Worker phases from the §4.6 state machine. -/
inductive WorkerPhase
  | pending
  | starting
  | running
  | succeeded
  | failed
  | aborted
  | timedOut
  | schedulingFailed
deriving DecidableEq

/-- Job phases mirror Worker phases (§3, Job). -/
inductive JobPhase
  | pending
  | starting
  | running
  | succeeded
  | failed
  | aborted
  | timedOut
  | schedulingFailed
deriving DecidableEq

/-- Modelled from the spec: `status{phase, started, ended}` of a Job (§3);
the JobStatus type itself lives outside the given sources. Timestamps are
modelled as naturals. -/
structure JobStatus where
  phase : JobPhase
  started : Option Nat := none
  ended : Option Nat := none
deriving DecidableEq

/-- Modelled from the spec: a Job value as passed to the store — `spec`
(primary container and sidecars, kept opaque) plus `status` (§3). -/
structure Job where
  spec : String
  status : JobStatus
deriving DecidableEq

/-- A Job sub-document as stored under `worker.jobs.<name>`. A dotted-path
`$set` of only the `status` field can create the document with no `spec`,
so both fields are optional at the document level. -/
structure JobDoc where
  spec : Option String
  status : Option JobStatus
deriving DecidableEq

/-- Marshalling a full Job value into its stored sub-document. -/
def Job.toDoc (j : Job) : JobDoc :=
  { spec := some j.spec, status := some j.status }

/-- The `worker` sub-document of an Event: its status phase and the `jobs{}`
mapping from job name to Job sub-document (§3, Worker). -/
structure WorkerDoc where
  phase : WorkerPhase
  jobs : List (String × JobDoc)
deriving DecidableEq

/-- An Event document in the `events` collection: the fields the jobs store
touches — `id` and the embedded `worker`. -/
structure EventDoc where
  id : String
  worker : WorkerDoc
deriving DecidableEq

/-- MongoDB UpdateOne (upsert absent): rewrite the first document matching
the filter, return the matched count together with the new collection. -/
def updateOne {α : Type} (coll : List α) (filter : α → Bool) (upd : α → α) :
    Nat × List α :=
  match coll with
  | [] => (0, [])
  | d :: rest =>
    if filter d then
      (1, upd d :: rest)
    else
      let r := updateOne rest filter upd
      (r.1, d :: r.2)

/-- `$set worker.jobs.<name> = doc`: replace the value at an existing key,
or append the field when the key is absent. -/
def setJob (jobs : List (String × JobDoc)) (name : String) (doc : JobDoc) :
    List (String × JobDoc) :=
  match jobs with
  | [] => [(name, doc)]
  | (k, v) :: rest =>
    if k == name then
      (k, doc) :: rest
    else
      (k, v) :: setJob rest name doc

/-- `$set worker.jobs.<name>.status = s`: overwrite the `status` field of an
existing job sub-document, or create the sub-document (with no `spec`) when
the dotted path does not yet exist. -/
def setJobStatus (jobs : List (String × JobDoc)) (name : String)
    (s : JobStatus) : List (String × JobDoc) :=
  match jobs with
  | [] => [(name, { spec := none, status := some s })]
  | (k, v) :: rest =>
    if k == name then
      (k, { v with status := some s }) :: rest
    else
      (k, v) :: setJobStatus rest name s

/-- The error kinds of the `meta` package surfaced by the stores and
services (§7). -/
inductive MetaError
  | errNotFound (type : String) (id : String)
  | errConflict (type : String) (id : String) (reason : String)
  | errAuthorization
  | errInternal (msg : String)
deriving DecidableEq

/-- The UpdateOne filter `{id: eventID}` used by the jobs store. -/
def eventIdMatches (eventID : String) (e : EventDoc) : Bool :=
  e.id == eventID

/-- A dotted-path `$set` under `worker.jobs`: apply an update to the
`worker.jobs` mapping of an Event document, leaving all other fields
unchanged. -/
def updateEventJobs (f : List (String × JobDoc) → List (String × JobDoc))
    (e : EventDoc) : EventDoc :=
  { e with worker := { e.worker with jobs := f e.worker.jobs } }

namespace jobsStore

/-- jobs_store.go Create: UpdateOne on the `events` collection with filter
`{id: eventID}` and update `{$set: {worker.jobs.<jobName>: job}}`; a
matched count of zero yields ErrNotFound{Type: "Event", ID: eventID}. -/
def Create (coll : List EventDoc) (eventID : String) (jobName : String)
    (job : Job) : Except MetaError (List EventDoc) :=
  let r := updateOne coll (eventIdMatches eventID)
    (updateEventJobs (fun js => setJob js jobName job.toDoc))
  if r.1 == 0 then
    Except.error (MetaError.errNotFound "Event" eventID)
  else
    Except.ok r.2

/-- jobs_store.go UpdateStatus: UpdateOne on the `events` collection with
filter `{id: eventID}` and update
`{$set: {worker.jobs.<jobName>.status: status}}`; a matched count of zero
yields ErrNotFound{Type: "Job", ID: eventID}. -/
def UpdateStatus (coll : List EventDoc) (eventID : String) (jobName : String)
    (status : JobStatus) : Except MetaError (List EventDoc) :=
  let r := updateOne coll (eventIdMatches eventID)
    (updateEventJobs (fun js => setJobStatus js jobName status))
  if r.1 == 0 then
    Except.error (MetaError.errNotFound "Job" eventID)
  else
    Except.ok r.2

end jobsStore

/-- Whether some Event document in the collection carries the given id. -/
def eventExists (coll : List EventDoc) (eventID : String) : Bool :=
  coll.any (eventIdMatches eventID)

/-- The first Event document carrying the given id, if any. -/
def findEvent (coll : List EventDoc) (eventID : String) : Option EventDoc :=
  coll.find? (eventIdMatches eventID)

/-- Lookup of a job sub-document by name in a worker's `jobs{}` mapping. -/
def lookupJob (jobs : List (String × JobDoc)) (name : String) :
    Option JobDoc :=
  (jobs.find? (fun p => p.1 == name)).map (fun p => p.2)

/-- The stored job sub-document at `worker.jobs.<name>` of the Event with
the given id, if both exist. -/
def jobDocIn (coll : List EventDoc) (eventID : String) (jobName : String) :
    Option JobDoc :=
  (findEvent coll eventID).bind (fun e => lookupJob e.worker.jobs jobName)

/-- The stored status at `worker.jobs.<name>.status`, if present. -/
def jobStatusIn (coll : List EventDoc) (eventID : String) (jobName : String) :
    Option JobStatus :=
  (jobDocIn coll eventID jobName).bind (fun jd => jd.status)

/-- The worker phase of the Event with the given id, if any. -/
def workerPhaseIn (coll : List EventDoc) (eventID : String) :
    Option WorkerPhase :=
  (findEvent coll eventID).map (fun e => e.worker.phase)

/-- Whether a store result is a success. -/
def isOkResult {α : Type} (r : Except MetaError α) : Bool :=
  match r with
  | Except.ok _ => true
  | Except.error _ => false

/-- Modelled from the spec: the §4.6 transition graph, identical for both
machines — PENDING steps to STARTING (start) or ABORTED (cancel); STARTING
to RUNNING (ready) or SCHEDULING_FAILED (infra); RUNNING to SUCCEEDED,
FAILED, ABORTED or TIMED_OUT; terminal states admit no transition. -/
def validJobTransition (a b : JobPhase) : Bool :=
  match a, b with
  | JobPhase.pending, JobPhase.starting => true
  | JobPhase.pending, JobPhase.aborted => true
  | JobPhase.starting, JobPhase.running => true
  | JobPhase.starting, JobPhase.schedulingFailed => true
  | JobPhase.running, JobPhase.succeeded => true
  | JobPhase.running, JobPhase.failed => true
  | JobPhase.running, JobPhase.aborted => true
  | JobPhase.running, JobPhase.timedOut => true
  | _, _ => false

/-- Terminal job phases (§3: terminal phases are final). -/
def terminalJobPhase (p : JobPhase) : Bool :=
  match p with
  | JobPhase.succeeded => true
  | JobPhase.failed => true
  | JobPhase.aborted => true
  | JobPhase.timedOut => true
  | JobPhase.schedulingFailed => true
  | _ => false

/-- A Role: a named, optionally project-scoped capability grant (§3,
RoleAssignment: `role = (name, scope)`; scope `*` is global). Unscoped
system roles carry an empty scope. -/
structure Role where
  name : String
  scope : String
deriving DecidableEq

/-- The global role scope `*` (libAuthz.RoleScopeGlobal). -/
def RoleScopeGlobal : String := "*"

/-- Modelled from the spec: the system ADMIN role constructor
(system.RoleAdmin, outside the given sources). -/
def RoleAdmin : Role := { name := "ADMIN", scope := "" }

/-- Modelled from the spec: the system READER role constructor
(system.RoleReader, outside the given sources). -/
def RoleReader : Role := { name := "READER", scope := "" }

/-- Modelled from the spec: the scoped EVENT_CREATOR role constructor
(core.RoleEventCreator, outside the given sources). -/
def RoleEventCreator (scope : String) : Role :=
  { name := "EVENT_CREATOR", scope := scope }

/-- Modelled from the spec: the scoped PROJECT_ADMIN role constructor
(core.RoleProjectAdmin, outside the given sources). -/
def RoleProjectAdmin (scope : String) : Role :=
  { name := "PROJECT_ADMIN", scope := scope }

/-- Modelled from the spec: the PROJECT_CREATOR role constructor
(core.RoleProjectCreator, outside the given sources). -/
def RoleProjectCreator : Role := { name := "PROJECT_CREATOR", scope := "" }

/-- Modelled from the spec: the scoped PROJECT_DEVELOPER role constructor
(core.RoleProjectDeveloper, outside the given sources). -/
def RoleProjectDeveloper (scope : String) : Role :=
  { name := "PROJECT_DEVELOPER", scope := scope }

/-- Modelled from the spec: the scoped PROJECT_USER role constructor
(core.RoleProjectUser, outside the given sources). -/
def RoleProjectUser (scope : String) : Role :=
  { name := "PROJECT_USER", scope := scope }

/-- Modelled from the spec: the SCHEDULER role constructor
(core.RoleScheduler, outside the given sources). -/
def RoleScheduler : Role := { name := "SCHEDULER", scope := "" }

/-- Modelled from the spec: the OBSERVER role constructor
(core.RoleObserver, outside the given sources). -/
def RoleObserver : Role := { name := "OBSERVER", scope := "" }

/-- Modelled from the spec: the WORKER role constructor, scoped to an event
id (core.RoleWorker, outside the given sources). -/
def RoleWorker (eventID : String) : Role :=
  { name := "WORKER", scope := eventID }

/-- named_principals.go rootPrincipal.Roles: the fixed role list of the
reserved `root` principal. -/
def rootPrincipalRoles : List Role :=
  [RoleAdmin, RoleReader, RoleEventCreator RoleScopeGlobal,
   RoleProjectAdmin RoleScopeGlobal, RoleProjectCreator,
   RoleProjectDeveloper RoleScopeGlobal, RoleProjectUser RoleScopeGlobal]

/-- named_principals.go schedulerPrincipal.Roles: the fixed role list of the
reserved `scheduler` principal. -/
def schedulerPrincipalRoles : List Role :=
  [RoleReader, RoleScheduler]

/-- named_principals.go observerPrincipal.Roles: the fixed role list of the
reserved `observer` principal. -/
def observerPrincipalRoles : List Role :=
  [RoleReader, RoleObserver]

/-- named_principals.go workerPrincipal.Roles: the role list of the
`worker(eventID)` principal. -/
def workerPrincipalRoles (eventID : String) : List Role :=
  [RoleReader, RoleWorker eventID]

/-- Principal types used in role assignments (principals.go). -/
inductive PrincipalType
  | user
  | serviceAccount
deriving DecidableEq

/-- A reference to a principal: its type and its id. -/
structure PrincipalReference where
  type : PrincipalType
  id : String
deriving DecidableEq

/-- A RoleAssignment: a principal reference together with a role (§3). -/
structure RoleAssignment where
  principal : PrincipalReference
  role : Role
deriving DecidableEq

/-- A store access performed by the role-assignments service, recorded so
that theorems can speak about which stores an operation touched. -/
inductive StoreAccess
  | userGet (id : String)
  | serviceAccountGet (id : String)
  | roleAssignmentGrant
  | roleAssignmentRevoke
  | roleAssignmentList
deriving DecidableEq

/-- The stores the role-assignments service depends on, as opaque
operations; an `Except.error` models an underlying store failure. -/
structure RoleAssignmentsStores where
  userGet : String → Except String Unit
  serviceAccountGet : String → Except String Unit
  grant : RoleAssignment → Except String Unit
  revoke : RoleAssignment → Except String Unit
  list : Except String (List RoleAssignment)

/-- Modelled from the spec: roleAssignmentsService.Grant (the service code
is outside the given sources; shape taken from §4.3 — every operation
begins with the authorization check — and from the branches exercised by
TestRoleAssignmentsServiceGrant): authorize; then fetch the principal from
the users or service-accounts store by principal type; then grant in the
role-assignments store. Returns the result with the list of store accesses
performed. -/
def roleAssignmentsServiceGrant (authorize : Bool)
    (stores : RoleAssignmentsStores) (ra : RoleAssignment) :
    Except MetaError Unit × List StoreAccess :=
  if authorize then
    match ra.principal.type with
    | PrincipalType.user =>
      match stores.userGet ra.principal.id with
      | Except.error e =>
        (Except.error (MetaError.errInternal ("error retrieving user: " ++ e)),
         [StoreAccess.userGet ra.principal.id])
      | Except.ok _ =>
        match stores.grant ra with
        | Except.error e =>
          (Except.error (MetaError.errInternal ("error granting role: " ++ e)),
           [StoreAccess.userGet ra.principal.id, StoreAccess.roleAssignmentGrant])
        | Except.ok _ =>
          (Except.ok (),
           [StoreAccess.userGet ra.principal.id, StoreAccess.roleAssignmentGrant])
    | PrincipalType.serviceAccount =>
      match stores.serviceAccountGet ra.principal.id with
      | Except.error e =>
        (Except.error
          (MetaError.errInternal ("error retrieving service account: " ++ e)),
         [StoreAccess.serviceAccountGet ra.principal.id])
      | Except.ok _ =>
        match stores.grant ra with
        | Except.error e =>
          (Except.error (MetaError.errInternal ("error granting role: " ++ e)),
           [StoreAccess.serviceAccountGet ra.principal.id,
            StoreAccess.roleAssignmentGrant])
        | Except.ok _ =>
          (Except.ok (),
           [StoreAccess.serviceAccountGet ra.principal.id,
            StoreAccess.roleAssignmentGrant])
  else
    (Except.error MetaError.errAuthorization, [])

/-- Modelled from the spec: roleAssignmentsService.List (outside the given
sources; shape from §4.3 and TestRoleAssignmentsServiceList): authorize,
then list from the role-assignments store. -/
def roleAssignmentsServiceList (authorize : Bool)
    (stores : RoleAssignmentsStores) :
    Except MetaError (List RoleAssignment) × List StoreAccess :=
  if authorize then
    match stores.list with
    | Except.error e =>
      (Except.error (MetaError.errInternal
        ("error retrieving role assignments from store: " ++ e)),
       [StoreAccess.roleAssignmentList])
    | Except.ok ras => (Except.ok ras, [StoreAccess.roleAssignmentList])
  else
    (Except.error MetaError.errAuthorization, [])

/-- Modelled from the spec: roleAssignmentsService.Revoke (outside the
given sources; shape from §4.3 and TestRoleAssignmentsServiceRevoke):
authorize; fetch the principal from the store matching its type; revoke in
the role-assignments store. -/
def roleAssignmentsServiceRevoke (authorize : Bool)
    (stores : RoleAssignmentsStores) (ra : RoleAssignment) :
    Except MetaError Unit × List StoreAccess :=
  if authorize then
    match ra.principal.type with
    | PrincipalType.user =>
      match stores.userGet ra.principal.id with
      | Except.error e =>
        (Except.error (MetaError.errInternal ("error retrieving user: " ++ e)),
         [StoreAccess.userGet ra.principal.id])
      | Except.ok _ =>
        match stores.revoke ra with
        | Except.error e =>
          (Except.error (MetaError.errInternal ("error revoking role: " ++ e)),
           [StoreAccess.userGet ra.principal.id, StoreAccess.roleAssignmentRevoke])
        | Except.ok _ =>
          (Except.ok (),
           [StoreAccess.userGet ra.principal.id, StoreAccess.roleAssignmentRevoke])
    | PrincipalType.serviceAccount =>
      match stores.serviceAccountGet ra.principal.id with
      | Except.error e =>
        (Except.error
          (MetaError.errInternal ("error retrieving service account: " ++ e)),
         [StoreAccess.serviceAccountGet ra.principal.id])
      | Except.ok _ =>
        match stores.revoke ra with
        | Except.error e =>
          (Except.error (MetaError.errInternal ("error revoking role: " ++ e)),
           [StoreAccess.serviceAccountGet ra.principal.id,
            StoreAccess.roleAssignmentRevoke])
        | Except.ok _ =>
          (Except.ok (),
           [StoreAccess.serviceAccountGet ra.principal.id,
            StoreAccess.roleAssignmentRevoke])
  else
    (Except.error MetaError.errAuthorization, [])

/-- A User document: id and locked flag (§3, User). -/
structure UserDoc where
  id : String
  locked : Bool
deriving DecidableEq

/-- Whether some User document in the collection carries the given id. -/
def userExists (coll : List UserDoc) (id : String) : Bool :=
  coll.any (fun u => u.id == id)

namespace usersStore

/-- Modelled from the spec: usersStore.Lock (the store code is outside the
given sources; shape from §3 — locking a User — and from the UpdateOne
matched-count branches asserted by TestUsersStoreLock): UpdateOne on the
`users` collection with filter `{id: id}` setting the locked flag; a
matched count of zero yields ErrNotFound{Type: "User", ID: id}. -/
def Lock (coll : List UserDoc) (id : String) :
    Except MetaError (List UserDoc) :=
  let r := updateOne coll (fun u => u.id == id)
    (fun u => { u with locked := true })
  if r.1 == 0 then
    Except.error (MetaError.errNotFound "User" id)
  else
    Except.ok r.2

/-- Modelled from the spec: usersStore.Unlock (outside the given sources;
shape from §3 and TestUsersStoreUnLock): UpdateOne with filter `{id: id}`
clearing the locked flag; a matched count of zero yields
ErrNotFound{Type: "User", ID: id}. -/
def Unlock (coll : List UserDoc) (id : String) :
    Except MetaError (List UserDoc) :=
  let r := updateOne coll (fun u => u.id == id)
    (fun u => { u with locked := false })
  if r.1 == 0 then
    Except.error (MetaError.errNotFound "User" id)
  else
    Except.ok r.2

end usersStore

/-- The closed set of principal variants (§9, polymorphic principal). -/
inductive Principal
  | user (id : String)
  | serviceAccount (id : String)
  | root
  | scheduler
  | observer
  | worker (eventID : String)
deriving DecidableEq

/-- Context keys: the package-private principalContextKey of principals.go,
or any other key some other package may have used. -/
inductive CtxKey
  | principalContextKey
  | otherKey (name : String)
deriving DecidableEq

/-- Context values: a Principal, or any other value. -/
inductive CtxVal
  | principalVal (p : Principal)
  | otherVal (s : String)
deriving DecidableEq

/-- A Go context, restricted to its key-value layer: WithValue wraps a
parent, and Value finds the innermost binding, so the model is a list with
the most recent binding first. -/
abbrev GoContext : Type := List (CtxKey × CtxVal)

/-- context.Context.Value: the innermost value stored under the key. -/
def contextValue (ctx : GoContext) (key : CtxKey) : Option CtxVal :=
  match ctx with
  | [] => none
  | (k, v) :: rest => if k == key then some v else contextValue rest key

/-- context.WithValue: augment the context with one binding. -/
def contextWithValue (ctx : GoContext) (key : CtxKey) (v : CtxVal) :
    GoContext :=
  (key, v) :: ctx

/-- principals.go ContextWithPrincipal: context.WithValue with the
package-private principalContextKey and the principal. -/
def ContextWithPrincipal (ctx : GoContext) (p : Principal) : GoContext :=
  contextWithValue ctx CtxKey.principalContextKey (CtxVal.principalVal p)

/-- The result of a Go expression that can panic. -/
inductive PanicOr (α : Type)
  | panicked
  | ok (a : α)
deriving DecidableEq

/-- The unchecked type assertion `v.(Principal)` applied to the result of
ctx.Value: panics when the value is absent (nil) or not a Principal. -/
def typeAssertPrincipal (v : Option CtxVal) : PanicOr Principal :=
  match v with
  | some (CtxVal.principalVal p) => PanicOr.ok p
  | _ => PanicOr.panicked

/-- principals.go PrincipalFromContext:
`ctx.Value(principalContextKey{}).(Principal)` — an unchecked assertion on
the stored context value. -/
def PrincipalFromContext (ctx : GoContext) : PanicOr Principal :=
  typeAssertPrincipal (contextValue ctx CtxKey.principalContextKey)

lemma updateOne_fst {α : Type} (coll : List α) (f : α → Bool) (u : α → α) :
    (updateOne coll f u).1 = (if coll.any f then 1 else 0) := by
  induction coll with
  | nil => simp [updateOne]
  | cons d rest ih =>
    by_cases h : f d
    · simp [updateOne, h]
    · simp [updateOne, h, ih]

lemma updateOne_find {α : Type} (coll : List α) (f : α → Bool) (u : α → α)
    (hf : ∀ x, f (u x) = f x) :
    (updateOne coll f u).2.find? f = (coll.find? f).map u := by
  induction coll with
  | nil => simp [updateOne]
  | cons d rest ih =>
    by_cases h : f d
    · simp [updateOne, h, List.find?_cons, hf d]
    · simp [updateOne, h, List.find?_cons, ih]

lemma lookupJob_setJob (jobs : List (String × JobDoc)) (n : String)
    (doc : JobDoc) : lookupJob (setJob jobs n doc) n = some doc := by
  induction jobs with
  | nil => simp [setJob, lookupJob]
  | cons kv rest ih =>
    by_cases h : kv.1 == n
    · simp [setJob, h, lookupJob, List.find?_cons]
    · simp [setJob, h, lookupJob, List.find?_cons] at ih ⊢
      exact ih

lemma lookupJob_setJobStatus (jobs : List (String × JobDoc)) (n : String)
    (s : JobStatus) :
    ∃ jd, lookupJob (setJobStatus jobs n s) n = some jd ∧
      jd.status = some s := by
  induction jobs with
  | nil =>
    refine ⟨{ spec := none, status := some s }, ?_, rfl⟩
    simp [setJobStatus, lookupJob]
  | cons kv rest ih =>
    by_cases h : kv.1 == n
    · refine ⟨{ spec := kv.2.spec, status := some s }, ?_, rfl⟩
      simp [setJobStatus, h, lookupJob, List.find?_cons]
    · obtain ⟨jd, hjd, hs⟩ := ih
      refine ⟨jd, ?_, hs⟩
      simp [setJobStatus, h, lookupJob, List.find?_cons] at hjd ⊢
      exact hjd

lemma eventExists_iff_findEvent (coll : List EventDoc) (eid : String) :
    eventExists coll eid = true ↔ (findEvent coll eid).isSome := by
  simp [eventExists, findEvent, List.any_eq_true, List.find?_isSome]

lemma Create_notFound (coll : List EventDoc) (eid jn : String) (job : Job)
    (h : eventExists coll eid = false) :
    jobsStore.Create coll eid jn job =
      Except.error (MetaError.errNotFound "Event" eid) := by
  have hany : coll.any (eventIdMatches eid) = false := h
  simp only [jobsStore.Create, updateOne_fst, hany]
  simp

lemma Create_ok (coll : List EventDoc) (eid jn : String) (job : Job)
    (h : eventExists coll eid = true) :
    ∃ c2, jobsStore.Create coll eid jn job = Except.ok c2 ∧
      jobDocIn c2 eid jn = some job.toDoc := by
  have hany : coll.any (eventIdMatches eid) = true := h
  have hsome := (eventExists_iff_findEvent coll eid).mp h
  obtain ⟨e, he⟩ := Option.isSome_iff_exists.mp hsome
  refine ⟨(updateOne coll (eventIdMatches eid)
    (updateEventJobs (fun js => setJob js jn job.toDoc))).2, ?_, ?_⟩
  · simp only [jobsStore.Create, updateOne_fst, hany]
    simp
  · rw [jobDocIn, findEvent,
      updateOne_find coll (eventIdMatches eid)
        (updateEventJobs (fun js => setJob js jn job.toDoc))
        (fun x => rfl)]
    rw [findEvent] at he
    rw [he]
    simp [updateEventJobs, lookupJob_setJob]

lemma UpdateStatus_notFound (coll : List EventDoc) (eid jn : String)
    (st : JobStatus) (h : eventExists coll eid = false) :
    jobsStore.UpdateStatus coll eid jn st =
      Except.error (MetaError.errNotFound "Job" eid) := by
  have hany : coll.any (eventIdMatches eid) = false := h
  simp only [jobsStore.UpdateStatus, updateOne_fst, hany]
  simp

lemma UpdateStatus_ok (coll : List EventDoc) (eid jn : String)
    (st : JobStatus) (h : eventExists coll eid = true) :
    ∃ c2, jobsStore.UpdateStatus coll eid jn st = Except.ok c2 ∧
      jobStatusIn c2 eid jn = some st := by
  have hany : coll.any (eventIdMatches eid) = true := h
  have hsome := (eventExists_iff_findEvent coll eid).mp h
  obtain ⟨e, he⟩ := Option.isSome_iff_exists.mp hsome
  refine ⟨(updateOne coll (eventIdMatches eid)
    (updateEventJobs (fun js => setJobStatus js jn st))).2, ?_, ?_⟩
  · simp only [jobsStore.UpdateStatus, updateOne_fst, hany]
    simp
  · rw [jobStatusIn, jobDocIn, findEvent,
      updateOne_find coll (eventIdMatches eid)
        (updateEventJobs (fun js => setJobStatus js jn st))
        (fun x => rfl)]
    rw [findEvent] at he
    rw [he]
    obtain ⟨jd, hjd, hs⟩ := lookupJob_setJobStatus e.worker.jobs jn st
    simp [updateEventJobs, hjd, hs]

lemma contextValue_eq_none (ctx : GoContext) (key : CtxKey) :
    (∀ kv ∈ ctx, kv.1 ≠ key) → contextValue ctx key = none := by
  induction ctx with
  | nil =>
    intro h
    rfl
  | cons kv rest ih =>
    intro h
    obtain ⟨k, v⟩ := kv
    have h1 : (k == key) = false := by
      simp only [beq_eq_false_iff_ne, ne_eq]
      exact h (k, v) (List.mem_cons_self _ _)
    have h2 : ∀ x ∈ rest, x.1 ≠ key :=
      fun x hx => h x (List.mem_cons_of_mem _ hx)
    simp [contextValue, h1, ih h2]

instance {e a : Type} [DecidableEq e] [DecidableEq a] :
    DecidableEq (Except e a) := by
  intro x y
  cases x <;> cases y
  case error.error e1 e2 =>
    exact if h : e1 = e2 then isTrue (by rw [h])
      else isFalse (fun hc => h (by injection hc))
  case error.ok e1 a2 => exact isFalse (fun hc => Except.noConfusion hc)
  case ok.error a1 e2 => exact isFalse (fun hc => Except.noConfusion hc)
  case ok.ok a1 a2 =>
    exact if h : a1 = a2 then isTrue (by rw [h])
      else isFalse (fun hc => h (by injection hc))

/-- Fixture: a job status in the RUNNING phase. -/
def statusRunning : JobStatus := { phase := JobPhase.running }

/-- Fixture: a job status in the terminal SUCCEEDED phase. -/
def statusSucceeded : JobStatus :=
  { phase := JobPhase.succeeded, started := some 1, ended := some 2 }

/-- Fixture: one Event whose worker holds a job that has SUCCEEDED. -/
def collWithTerminalJob : List EventDoc :=
  [{ id := "evt-1",
     worker := { phase := WorkerPhase.running,
                 jobs := [("foo",
                   { spec := some "img-a",
                     status := some statusSucceeded })] } }]

/-- Fixture: the collection above after the job status is overwritten with
the RUNNING status. -/
def collTerminalAfter : List EventDoc :=
  [{ id := "evt-1",
     worker := { phase := WorkerPhase.running,
                 jobs := [("foo",
                   { spec := some "img-a",
                     status := some statusRunning })] } }]

/-- Fixture: one Event whose worker is still PENDING and has no jobs. -/
def collPendingWorker : List EventDoc :=
  [{ id := "evt-2", worker := { phase := WorkerPhase.pending, jobs := [] } }]

/-- Fixture: a job value to create. -/
def jobFixture : Job :=
  { spec := "img-b", status := { phase := JobPhase.pending } }

/-- Fixture: a second, different job value under the same name. -/
def jobReplacement : Job :=
  { spec := "img-c", status := { phase := JobPhase.pending } }

/-- Fixture: the terminal-job collection after the job named foo is
replaced wholesale by jobReplacement. -/
def collFooAfterReplace : List EventDoc :=
  [{ id := "evt-1",
     worker := { phase := WorkerPhase.running,
                 jobs := [("foo", jobReplacement.toDoc)] } }]

/-- Fixture: a users collection with a single unlocked user. -/
def usersFixture : List UserDoc :=
  [{ id := "tony@starkindustries.com", locked := false }]

/-- Fixture: a context carrying only a non-principal binding. -/
def ctxNoPrincipal : GoContext :=
  [(CtxKey.otherKey "request-id", CtxVal.otherVal "abc-123")]

/-- Claim C1, counterexample: at a concrete store whose job foo is in the
terminal SUCCEEDED phase, UpdateStatus with a RUNNING status — an invalid
transition out of a terminal phase under the §4.6 graph — returns success
rather than Conflict and overwrites the stored status, refuting the claim
that the update filter includes the expected current phase and that invalid
transitions are rejected leaving the document unchanged. -/
theorem updateStatus_terminal_transition_counterexample :
    terminalJobPhase JobPhase.succeeded = true ∧
    validJobTransition JobPhase.succeeded JobPhase.running = false ∧
    jobStatusIn collWithTerminalJob "evt-1" "foo" = some statusSucceeded ∧
    jobsStore.UpdateStatus collWithTerminalJob "evt-1" "foo" statusRunning =
      Except.ok collTerminalAfter ∧
    jobStatusIn collTerminalAfter "evt-1" "foo" = some statusRunning := by
  decide

/-- Claim C1 (amended): jobsStore.UpdateStatus filters only on the event
id, so it performs no phase-transition validation at all: it never returns
Conflict for any store state or requested status, and whenever an Event
with the given id exists the given status is written unconditionally —
including transitions out of terminal phases. -/
theorem updateStatus_no_transition_validation (coll : List EventDoc)
    (eid jn : String) (st : JobStatus) :
    (∀ t i r, jobsStore.UpdateStatus coll eid jn st ≠
      Except.error (MetaError.errConflict t i r)) ∧
    (eventExists coll eid = true →
      ∃ c2, jobsStore.UpdateStatus coll eid jn st = Except.ok c2 ∧
        jobStatusIn c2 eid jn = some st) := by
  constructor
  · intro t i r
    rcases Bool.eq_false_or_eq_true (eventExists coll eid) with h | h
    · obtain ⟨c2, hok, _⟩ := UpdateStatus_ok coll eid jn st h
      rw [hok]
      simp
    · rw [UpdateStatus_notFound coll eid jn st h]
      simp
  · exact UpdateStatus_ok coll eid jn st

/-- Claim C1, witness for the amended theorem at a concrete store. -/
theorem updateStatus_no_transition_validation_witness :
    eventExists collWithTerminalJob "evt-1" = true ∧
    (∃ c2,
      jobsStore.UpdateStatus collWithTerminalJob "evt-1" "foo" statusRunning =
        Except.ok c2 ∧
      jobStatusIn c2 "evt-1" "foo" = some statusRunning) :=
  ⟨by decide,
   (updateStatus_no_transition_validation collWithTerminalJob "evt-1" "foo"
     statusRunning).2 (by decide)⟩

/-- Claim C2, counterexample: the scheduler, observer and worker principals
each also hold the system READER role, so none of them holds ONLY the role
the claim names. -/
theorem reserved_principal_roles_counterexample :
    RoleReader ∈ schedulerPrincipalRoles ∧ RoleReader ≠ RoleScheduler ∧
    RoleReader ∈ observerPrincipalRoles ∧ RoleReader ≠ RoleObserver ∧
    RoleReader ∈ workerPrincipalRoles "evt-1" ∧
    RoleReader ≠ RoleWorker "evt-1" := by
  decide

/-- Claim C2 (amended): each reserved principal's Roles() is the
compile-time constant list of named_principals.go, but every special
principal carries the system READER role as well: scheduler holds exactly
READER and SCHEDULER; observer exactly READER and OBSERVER; worker(eventID)
exactly READER and WORKER scoped to that event id; and root holds ADMIN,
READER, and the globally scoped event/project roles. -/
theorem reserved_principal_roles_amended (eid : String) (r : Role) :
    (r ∈ schedulerPrincipalRoles ↔ (r = RoleReader ∨ r = RoleScheduler)) ∧
    (r ∈ observerPrincipalRoles ↔ (r = RoleReader ∨ r = RoleObserver)) ∧
    (r ∈ workerPrincipalRoles eid ↔ (r = RoleReader ∨ r = RoleWorker eid)) ∧
    (r ∈ rootPrincipalRoles ↔
      (r = RoleAdmin ∨ r = RoleReader ∨
       r = RoleEventCreator RoleScopeGlobal ∨
       r = RoleProjectAdmin RoleScopeGlobal ∨ r = RoleProjectCreator ∨
       r = RoleProjectDeveloper RoleScopeGlobal ∨
       r = RoleProjectUser RoleScopeGlobal)) := by
  refine ⟨?_, ?_, ?_, ?_⟩ <;>
    simp [schedulerPrincipalRoles, observerPrincipalRoles,
      workerPrincipalRoles, rootPrincipalRoles]

/-- Claim C2, witness: the amended characterization applied at a concrete
role and event id. -/
theorem reserved_principal_roles_amended_witness :
    RoleReader ∈ schedulerPrincipalRoles ↔
      (RoleReader = RoleReader ∨ RoleReader = RoleScheduler) :=
  (reserved_principal_roles_amended "evt-1" RoleReader).1

/-- Claim C3, counterexample: at a concrete store whose worker is still
PENDING — not RUNNING — creating a job succeeds, refuting the claim that
job creation fails for every Event whose Worker phase is not RUNNING. -/
theorem create_pending_worker_counterexample :
    workerPhaseIn collPendingWorker "evt-2" = some WorkerPhase.pending ∧
    WorkerPhase.pending ≠ WorkerPhase.running ∧
    isOkResult (jobsStore.Create collPendingWorker "evt-2" "job-a" jobFixture)
      = true := by
  decide

/-- Claim C3 (amended): jobsStore.Create succeeds exactly when an Event
with the given id exists; the Worker phase plays no part in the filter, so
the RUNNING-only restriction is not enforced by the store. -/
theorem create_ignores_worker_phase (coll : List EventDoc) (eid jn : String)
    (job : Job) :
    isOkResult (jobsStore.Create coll eid jn job) = eventExists coll eid := by
  rcases Bool.eq_false_or_eq_true (eventExists coll eid) with h | h
  · obtain ⟨c2, hok, _⟩ := Create_ok coll eid jn job h
    rw [hok, h]
    rfl
  · rw [Create_notFound coll eid jn job h, h]
    rfl

/-- Claim C4, counterexample: at a concrete store that already holds a job
named foo, creating another job named foo succeeds — no Conflict — and the
existing sub-document is replaced wholesale, refuting the claimed
uniqueness enforcement. -/
theorem create_duplicate_name_counterexample :
    jobDocIn collWithTerminalJob "evt-1" "foo" =
      some { spec := some "img-a", status := some statusSucceeded } ∧
    jobsStore.Create collWithTerminalJob "evt-1" "foo" jobReplacement =
      Except.ok collFooAfterReplace ∧
    jobDocIn collFooAfterReplace "evt-1" "foo" = some jobReplacement.toDoc ∧
    jobReplacement.toDoc ≠
      { spec := some "img-a", status := some statusSucceeded } := by
  decide

/-- Claim C4 (amended): whenever an Event with the given id exists,
jobsStore.Create succeeds and stores the given job under the given name,
replacing any existing sub-document with that name; duplicate names are
never rejected with Conflict. -/
theorem create_replaces_existing_job (coll : List EventDoc)
    (eid jn : String) (job : Job) (h : eventExists coll eid = true) :
    ∃ c2, jobsStore.Create coll eid jn job = Except.ok c2 ∧
      jobDocIn c2 eid jn = some job.toDoc :=
  Create_ok coll eid jn job h

/-- Claim C4, witness: the amended theorem applied at a store that already
holds a job of the same name. -/
theorem create_replaces_existing_job_witness :
    eventExists collWithTerminalJob "evt-1" = true ∧
    (∃ c2,
      jobsStore.Create collWithTerminalJob "evt-1" "foo" jobReplacement =
        Except.ok c2 ∧
      jobDocIn c2 "evt-1" "foo" = some jobReplacement.toDoc) :=
  ⟨by decide,
   create_replaces_existing_job collWithTerminalJob "evt-1" "foo"
     jobReplacement (by decide)⟩

/-- Claim C5: when no Event document carries the given event id, Create
returns ErrNotFound (Type Event) and UpdateStatus returns ErrNotFound
(Type Job) — both NotFound, never success or another error kind. -/
theorem missing_event_not_found (coll : List EventDoc) (eid jn : String)
    (job : Job) (st : JobStatus) (h : eventExists coll eid = false) :
    jobsStore.Create coll eid jn job =
      Except.error (MetaError.errNotFound "Event" eid) ∧
    jobsStore.UpdateStatus coll eid jn st =
      Except.error (MetaError.errNotFound "Job" eid) :=
  ⟨Create_notFound coll eid jn job h, UpdateStatus_notFound coll eid jn st h⟩

/-- Claim C5, witness at an event id matching no document. -/
theorem missing_event_not_found_witness :
    eventExists collWithTerminalJob "evt-x" = false ∧
    (jobsStore.Create collWithTerminalJob "evt-x" "foo" jobReplacement =
       Except.error (MetaError.errNotFound "Event" "evt-x") ∧
     jobsStore.UpdateStatus collWithTerminalJob "evt-x" "foo" statusRunning =
       Except.error (MetaError.errNotFound "Job" "evt-x")) :=
  ⟨by decide,
   missing_event_not_found collWithTerminalJob "evt-x" "foo" jobReplacement
     statusRunning (by decide)⟩

/-- Claim C6: when the authorization check fails, Grant, List and Revoke of
the role-assignments service each return the Authorization error with an
empty store-access trace — no users, service-accounts or role-assignments
store operation is performed — whatever the stores hold. -/
theorem role_assignments_authorize_first (stores : RoleAssignmentsStores)
    (ra : RoleAssignment) :
    roleAssignmentsServiceGrant false stores ra =
      (Except.error MetaError.errAuthorization, []) ∧
    roleAssignmentsServiceList false stores =
      (Except.error MetaError.errAuthorization, []) ∧
    roleAssignmentsServiceRevoke false stores ra =
      (Except.error MetaError.errAuthorization, []) :=
  ⟨rfl, rfl, rfl⟩

/-- Claim C7: usersStore.Lock and usersStore.Unlock return ErrNotFound with
Type User and the requested id when no User document matches it, and both
succeed when a matching document exists. -/
theorem users_store_lock_unlock (coll : List UserDoc) (id : String) :
    (userExists coll id = false →
      usersStore.Lock coll id =
        Except.error (MetaError.errNotFound "User" id) ∧
      usersStore.Unlock coll id =
        Except.error (MetaError.errNotFound "User" id)) ∧
    (userExists coll id = true →
      (∃ c2, usersStore.Lock coll id = Except.ok c2) ∧
      (∃ c2, usersStore.Unlock coll id = Except.ok c2)) := by
  constructor
  · intro h
    have hany : (coll.any fun u => u.id == id) = false := h
    constructor
    · simp only [usersStore.Lock, updateOne_fst, hany]
      simp
    · simp only [usersStore.Unlock, updateOne_fst, hany]
      simp
  · intro h
    have hany : (coll.any fun u => u.id == id) = true := h
    constructor
    · refine ⟨(updateOne coll (fun u => u.id == id)
        (fun u => { u with locked := true })).2, ?_⟩
      simp only [usersStore.Lock, updateOne_fst, hany]
      simp
    · refine ⟨(updateOne coll (fun u => u.id == id)
        (fun u => { u with locked := false })).2, ?_⟩
      simp only [usersStore.Unlock, updateOne_fst, hany]
      simp

/-- Claim C7, witness: both branches at a concrete users collection. -/
theorem users_store_lock_unlock_witness :
    (userExists usersFixture "nobody@example.com" = false ∧
     usersStore.Lock usersFixture "nobody@example.com" =
       Except.error (MetaError.errNotFound "User" "nobody@example.com")) ∧
    (userExists usersFixture "tony@starkindustries.com" = true ∧
     ∃ c2, usersStore.Lock usersFixture "tony@starkindustries.com" =
       Except.ok c2) :=
  ⟨⟨by decide,
    ((users_store_lock_unlock usersFixture "nobody@example.com").1
      (by decide)).1⟩,
   ⟨by decide,
    ((users_store_lock_unlock usersFixture "tony@starkindustries.com").2
      (by decide)).1⟩⟩

/-- Claim C8: carrying the principal on the request context round-trips —
PrincipalFromContext after ContextWithPrincipal returns exactly the stored
principal, for every context and every principal. -/
theorem principal_context_roundtrip (ctx : GoContext) (p : Principal) :
    PrincipalFromContext (ContextWithPrincipal ctx p) = PanicOr.ok p := rfl

/-- Claim C9: on a context never augmented with a Principal — no binding
under the package-private principalContextKey — PrincipalFromContext hits
the unchecked type assertion on a nil value and panics, rather than
returning nil or an error. -/
theorem principal_from_context_panics (ctx : GoContext)
    (h : ∀ kv ∈ ctx, kv.1 ≠ CtxKey.principalContextKey) :
    PrincipalFromContext ctx = PanicOr.panicked := by
  rw [PrincipalFromContext,
    contextValue_eq_none ctx CtxKey.principalContextKey h]
  rfl

/-- Claim C9, witness: a concrete context holding only an unrelated key. -/
theorem principal_from_context_panics_witness :
    (∀ kv ∈ ctxNoPrincipal, kv.1 ≠ CtxKey.principalContextKey) ∧
    PrincipalFromContext ctxNoPrincipal = PanicOr.panicked :=
  ⟨by decide, principal_from_context_panics ctxNoPrincipal (by decide)⟩

/-- Claim C10: when no Event matches, UpdateStatus returns ErrNotFound
whose Type is Job but whose ID is the event id (not the job name); and the
named job's existence inside a matched Event is never checked — when the
Event exists but holds no job of that name, the status write still
succeeds, creating the sub-document. -/
theorem update_status_notfound_id_and_no_job_check (coll : List EventDoc)
    (eid jn : String) (st : JobStatus) :
    (eventExists coll eid = false →
      jobsStore.UpdateStatus coll eid jn st =
        Except.error (MetaError.errNotFound "Job" eid)) ∧
    (eventExists coll eid = true → jobDocIn coll eid jn = none →
      ∃ c2, jobsStore.UpdateStatus coll eid jn st = Except.ok c2 ∧
        jobStatusIn c2 eid jn = some st) := by
  constructor
  · exact UpdateStatus_notFound coll eid jn st
  · intro h _
    exact UpdateStatus_ok coll eid jn st h

/-- Claim C10, witness: the NotFound branch carries the event id while the
job name differs, and the write branch succeeds for a job name absent from
the matched Event. -/
theorem update_status_notfound_id_and_no_job_check_witness :
    (eventExists collWithTerminalJob "evt-x" = false ∧
     jobsStore.UpdateStatus collWithTerminalJob "evt-x" "foo" statusRunning =
       Except.error (MetaError.errNotFound "Job" "evt-x")) ∧
    (eventExists collPendingWorker "evt-2" = true ∧
     jobDocIn collPendingWorker "evt-2" "new-job" = none ∧
     ∃ c2,
       jobsStore.UpdateStatus collPendingWorker "evt-2" "new-job"
         statusRunning = Except.ok c2 ∧
       jobStatusIn c2 "evt-2" "new-job" = some statusRunning) :=
  ⟨⟨by decide,
    (update_status_notfound_id_and_no_job_check collWithTerminalJob "evt-x"
      "foo" statusRunning).1 (by decide)⟩,
   ⟨by decide, by decide,
    (update_status_notfound_id_and_no_job_check collPendingWorker "evt-2"
      "new-job" statusRunning).2 (by decide) (by decide)⟩⟩
